import Mathlib

/-!
Verification of `backup.py` (TrueNAS configuration auto-backup tool).

Python strings are embedded as `List Char`; Python `None`-or-string values as
`Option String`; machine state (directory contents, network replies, the
environment) is passed explicitly.  Each claim C1..C10 has one theorem below.
-/

namespace Backup

/-- Python strings, embedded as lists of characters. -/
abbrev Str := List Char

/-- ASCII whitespace recognised by Python `str.strip()` (the inputs we
reason about are ASCII host names and keys). -/
def isspace (c : Char) : Bool :=
  c == ' ' || c == '\t' || c == '\n' || c == '\r' || c == '\x0b' || c == '\x0c'

/-- Python `s.lstrip()`. -/
def lstripWS (s : Str) : Str := s.dropWhile isspace

/-- Generic right-strip: remove trailing characters satisfying `p`. -/
def rstripBy (p : Char → Bool) (s : Str) : Str := (s.reverse.dropWhile p).reverse

/-- Python `s.strip()` (no argument: strip whitespace on both sides). -/
def pyStrip (s : Str) : Str := rstripBy isspace (lstripWS s)

/-- Python `s.rstrip('/')`. -/
def rstripSlash (s : Str) : Str := rstripBy (fun c => c == '/') s

/-- Python `s.startswith(p)`. -/
def startswith (s p : Str) : Bool := p.isPrefixOf s

/-- Python `s.endswith(p)`. -/
def endswith (s p : Str) : Bool := p.isSuffixOf s

/-- `build_ws_base` from backup.py lines 32-42: normalize a host input to a
websocket base address. -/
def build_ws_base (host : Str) : Str :=
  let h := pyStrip host
  if startswith h "ws://".data || startswith h "wss://".data then
    rstripSlash h
  else if startswith h "http://".data then
    "ws://".data ++ rstripSlash (h.drop 7)
  else if startswith h "https://".data then
    "wss://".data ++ rstripSlash (h.drop 8)
  else
    "wss://".data ++ h

/-- `build_http_base` from backup.py lines 45-53: normalize a host input to an
HTTP base address. -/
def build_http_base (host : Str) : Str :=
  let h := pyStrip host
  if startswith h "http://".data || startswith h "https://".data then
    rstripSlash h
  else if startswith h "ws://".data then
    "http://".data ++ rstripSlash (h.drop 5)
  else if startswith h "wss://".data then
    "https://".data ++ rstripSlash (h.drop 6)
  else
    "https://".data ++ h

/-- `ws_api_url` from backup.py lines 56-60: append `/api/current` unless
already present. -/
def ws_api_url (host : Str) : Str :=
  let base := build_ws_base host
  if endswith base "/api/current".data then base else base ++ "/api/current".data

/-- `http_api_base` from backup.py lines 63-64. -/
def http_api_base (host : Str) : Str := build_http_base host

/-- URL resolution inside `download_file` (backup.py lines 104-109): an
absolute URL is used as-is, a relative one is prefixed with the HTTP base. -/
def resolve_download_url (host url : Str) : Str :=
  if startswith url "http://".data || startswith url "https://".data then url
  else http_api_base host ++ url

/-! Helper lemmas about the embedded Python string operations. -/

theorem dropWhile_all_false (p : Char → Bool) (l : Str)
    (H : ∀ c ∈ l, p c = false) : l.dropWhile p = l := by
  cases l with
  | nil => rfl
  | cons a t =>
      have ha : p a = false := H a (List.mem_cons_self a t)
      simp [List.dropWhile_cons, ha]

theorem pyStrip_eq_self (l : Str) (H : ∀ c ∈ l, isspace c = false) :
    pyStrip l = l := by
  have h1 : lstripWS l = l := dropWhile_all_false isspace l H
  have h2 : l.reverse.dropWhile isspace = l.reverse := by
    refine dropWhile_all_false isspace l.reverse ?_
    intro c hc
    exact H c (List.mem_reverse.mp hc)
  simp [pyStrip, h1, rstripBy, h2]

theorem noWS_append (p h : Str) (Hp : ∀ c ∈ p, isspace c = false)
    (Hh : ∀ c ∈ h, isspace c = false) : ∀ c ∈ p ++ h, isspace c = false := by
  intro c hc
  rcases List.mem_append.mp hc with h1 | h2
  · exact Hp c h1
  · exact Hh c h2

theorem rstripSlash_eq_self (l : Str) (H : l.getLast? ≠ some '/') :
    rstripSlash l = l := by
  unfold rstripSlash rstripBy
  cases hr : l.reverse with
  | nil =>
      have : l = [] := List.reverse_eq_nil_iff.mp hr
      simp [this]
  | cons a t =>
      have hhead : l.reverse.head? = some a := by rw [hr]; rfl
      have hlast : l.getLast? = some a := by rw [← List.head?_reverse]; exact hhead
      have hane : a ≠ '/' := by
        intro h; exact H (h ▸ hlast)
      have hfalse : (a == '/') = false := by
        simp [hane]
      have hdw : List.dropWhile (fun c => c == '/') (a :: t) = a :: t := by
        simp [List.dropWhile_cons, hfalse]
      rw [hdw, ← hr, List.reverse_reverse]

theorem getLast?_append_right (p h : Str) (H : h ≠ []) :
    (p ++ h).getLast? = h.getLast? := by
  rw [List.getLast?_append]
  cases hh : h.getLast? with
  | none =>
      exact absurd (List.getLast?_eq_none_iff.mp hh) H
  | some a => rfl

theorem isPrefixOf_append_self (l h : Str) : List.isPrefixOf l (l ++ h) = true := by
  induction l with
  | nil => simp [List.isPrefixOf]
  | cons a t ih => simp [List.isPrefixOf, ih]

theorem endswith_append_self (b s : Str) : endswith (b ++ s) s = true := by
  unfold endswith List.isSuffixOf
  rw [List.reverse_append]
  exact isPrefixOf_append_self s.reverse b.reverse

/-! Evaluation of the two base-address builders on each accepted host form.
`h` stands for a clean host: non-empty, no whitespace, no trailing slash. -/

theorem build_ws_base_bare (h : Str)
    (Hws : ∀ c ∈ h, isspace c = false)
    (Hb1 : startswith h "ws://".data = false)
    (Hb2 : startswith h "wss://".data = false)
    (Hb3 : startswith h "http://".data = false)
    (Hb4 : startswith h "https://".data = false) :
    build_ws_base h = "wss://".data ++ h := by
  have hstrip : pyStrip h = h := pyStrip_eq_self h Hws
  simp [build_ws_base, hstrip, Hb1, Hb2, Hb3, Hb4]

theorem build_ws_base_http (h : Str)
    (Hws : ∀ c ∈ h, isspace c = false)
    (Hsl : h.getLast? ≠ some '/') :
    build_ws_base ("http://".data ++ h) = "ws://".data ++ h := by
  have hstrip : pyStrip ("http://".data ++ h) = "http://".data ++ h :=
    pyStrip_eq_self _ (noWS_append _ h (by decide) Hws)
  have hdrop : ("http://".data ++ h).drop 7 = h := rfl
  have hrs : rstripSlash h = h := rstripSlash_eq_self h Hsl
  have hc1 : (startswith ("http://".data ++ h) "ws://".data ||
      startswith ("http://".data ++ h) "wss://".data) = false := by
    simp [startswith, List.isPrefixOf]
  have hc2 : startswith ("http://".data ++ h) "http://".data = true :=
    isPrefixOf_append_self _ _
  simp only [build_ws_base]
  rw [hstrip, hdrop, hc1, hc2, hrs]
  simp

theorem build_ws_base_https (h : Str)
    (Hws : ∀ c ∈ h, isspace c = false)
    (Hsl : h.getLast? ≠ some '/') :
    build_ws_base ("https://".data ++ h) = "wss://".data ++ h := by
  have hstrip : pyStrip ("https://".data ++ h) = "https://".data ++ h :=
    pyStrip_eq_self _ (noWS_append _ h (by decide) Hws)
  have hdrop : ("https://".data ++ h).drop 8 = h := rfl
  have hrs : rstripSlash h = h := rstripSlash_eq_self h Hsl
  have hc1 : (startswith ("https://".data ++ h) "ws://".data ||
      startswith ("https://".data ++ h) "wss://".data) = false := by
    simp [startswith, List.isPrefixOf]
  have hc2 : startswith ("https://".data ++ h) "http://".data = false := by
    simp [startswith, List.isPrefixOf]
  have hc3 : startswith ("https://".data ++ h) "https://".data = true :=
    isPrefixOf_append_self _ _
  simp only [build_ws_base]
  rw [hstrip, hdrop, hc1, hc2, hc3, hrs]
  simp

theorem build_ws_base_ws (h : Str)
    (Hws : ∀ c ∈ h, isspace c = false)
    (Hnil : h ≠ [])
    (Hsl : h.getLast? ≠ some '/') :
    build_ws_base ("ws://".data ++ h) = "ws://".data ++ h := by
  have hstrip : pyStrip ("ws://".data ++ h) = "ws://".data ++ h :=
    pyStrip_eq_self _ (noWS_append _ h (by decide) Hws)
  have hrs : rstripSlash ("ws://".data ++ h) = "ws://".data ++ h := by
    refine rstripSlash_eq_self _ ?_
    rw [getLast?_append_right _ h Hnil]
    exact Hsl
  have hc1 : startswith ("ws://".data ++ h) "ws://".data = true :=
    isPrefixOf_append_self _ _
  simp only [build_ws_base]
  rw [hstrip, hc1, hrs]
  simp

theorem build_ws_base_wss (h : Str)
    (Hws : ∀ c ∈ h, isspace c = false)
    (Hnil : h ≠ [])
    (Hsl : h.getLast? ≠ some '/') :
    build_ws_base ("wss://".data ++ h) = "wss://".data ++ h := by
  have hstrip : pyStrip ("wss://".data ++ h) = "wss://".data ++ h :=
    pyStrip_eq_self _ (noWS_append _ h (by decide) Hws)
  have hrs : rstripSlash ("wss://".data ++ h) = "wss://".data ++ h := by
    refine rstripSlash_eq_self _ ?_
    rw [getLast?_append_right _ h Hnil]
    exact Hsl
  have hc1 : startswith ("wss://".data ++ h) "ws://".data = false := by
    simp [startswith, List.isPrefixOf]
  have hc2 : startswith ("wss://".data ++ h) "wss://".data = true :=
    isPrefixOf_append_self _ _
  simp only [build_ws_base]
  rw [hstrip, hc1, hc2, hrs]
  simp

theorem build_http_base_bare (h : Str)
    (Hws : ∀ c ∈ h, isspace c = false)
    (Hb1 : startswith h "ws://".data = false)
    (Hb2 : startswith h "wss://".data = false)
    (Hb3 : startswith h "http://".data = false)
    (Hb4 : startswith h "https://".data = false) :
    build_http_base h = "https://".data ++ h := by
  have hstrip : pyStrip h = h := pyStrip_eq_self h Hws
  simp [build_http_base, hstrip, Hb1, Hb2, Hb3, Hb4]

theorem build_http_base_http (h : Str)
    (Hws : ∀ c ∈ h, isspace c = false)
    (Hnil : h ≠ [])
    (Hsl : h.getLast? ≠ some '/') :
    build_http_base ("http://".data ++ h) = "http://".data ++ h := by
  have hstrip : pyStrip ("http://".data ++ h) = "http://".data ++ h :=
    pyStrip_eq_self _ (noWS_append _ h (by decide) Hws)
  have hrs : rstripSlash ("http://".data ++ h) = "http://".data ++ h := by
    refine rstripSlash_eq_self _ ?_
    rw [getLast?_append_right _ h Hnil]
    exact Hsl
  have hc1 : startswith ("http://".data ++ h) "http://".data = true :=
    isPrefixOf_append_self _ _
  simp only [build_http_base]
  rw [hstrip, hc1, hrs]
  simp

theorem build_http_base_https (h : Str)
    (Hws : ∀ c ∈ h, isspace c = false)
    (Hnil : h ≠ [])
    (Hsl : h.getLast? ≠ some '/') :
    build_http_base ("https://".data ++ h) = "https://".data ++ h := by
  have hstrip : pyStrip ("https://".data ++ h) = "https://".data ++ h :=
    pyStrip_eq_self _ (noWS_append _ h (by decide) Hws)
  have hrs : rstripSlash ("https://".data ++ h) = "https://".data ++ h := by
    refine rstripSlash_eq_self _ ?_
    rw [getLast?_append_right _ h Hnil]
    exact Hsl
  have hc1 : startswith ("https://".data ++ h) "http://".data = false := by
    simp [startswith, List.isPrefixOf]
  have hc2 : startswith ("https://".data ++ h) "https://".data = true :=
    isPrefixOf_append_self _ _
  simp only [build_http_base]
  rw [hstrip, hc1, hc2, hrs]
  simp

theorem build_http_base_ws (h : Str)
    (Hws : ∀ c ∈ h, isspace c = false)
    (Hsl : h.getLast? ≠ some '/') :
    build_http_base ("ws://".data ++ h) = "http://".data ++ h := by
  have hstrip : pyStrip ("ws://".data ++ h) = "ws://".data ++ h :=
    pyStrip_eq_self _ (noWS_append _ h (by decide) Hws)
  have hdrop : ("ws://".data ++ h).drop 5 = h := rfl
  have hrs : rstripSlash h = h := rstripSlash_eq_self h Hsl
  have hc1 : (startswith ("ws://".data ++ h) "http://".data ||
      startswith ("ws://".data ++ h) "https://".data) = false := by
    simp [startswith, List.isPrefixOf]
  have hc2 : startswith ("ws://".data ++ h) "ws://".data = true :=
    isPrefixOf_append_self _ _
  simp only [build_http_base]
  rw [hstrip, hdrop, hc1, hc2, hrs]
  simp

theorem build_http_base_wss (h : Str)
    (Hws : ∀ c ∈ h, isspace c = false)
    (Hsl : h.getLast? ≠ some '/') :
    build_http_base ("wss://".data ++ h) = "https://".data ++ h := by
  have hstrip : pyStrip ("wss://".data ++ h) = "wss://".data ++ h :=
    pyStrip_eq_self _ (noWS_append _ h (by decide) Hws)
  have hdrop : ("wss://".data ++ h).drop 6 = h := rfl
  have hrs : rstripSlash h = h := rstripSlash_eq_self h Hsl
  have hc1 : (startswith ("wss://".data ++ h) "http://".data ||
      startswith ("wss://".data ++ h) "https://".data) = false := by
    simp [startswith, List.isPrefixOf]
  have hc2 : startswith ("wss://".data ++ h) "ws://".data = false := by
    simp [startswith, List.isPrefixOf]
  have hc3 : startswith ("wss://".data ++ h) "wss://".data = true :=
    isPrefixOf_append_self _ _
  simp only [build_http_base]
  rw [hstrip, hdrop, hc1, hc2, hc3, hrs]
  simp

theorem rstripSlash_append_slash (l : Str) :
    rstripSlash (l ++ ['/']) = rstripSlash l := by
  unfold rstripSlash rstripBy
  rw [List.reverse_append]
  simp [List.dropWhile_cons]

/-- C1: for every host input of the forms bare host, `http://h`, `https://h`,
`ws://h`, `wss://h` (with `h` a clean host: non-empty, no whitespace, no
trailing slash, no scheme of its own, not already ending in the API suffix),
the control-channel normalizer `ws_api_url` over `build_ws_base` maps bare
host and `https://` to `wss://`, `http://` to `ws://`, passes `ws://` and
`wss://` through unchanged, and appends `/api/current` exactly once: it is
appended when absent and left alone when the normalized base already ends
with it, and every result ends with it. -/
theorem C1_ws_url_normalizer (h : Str)
    (Hws : ∀ c ∈ h, isspace c = false)
    (Hnil : h ≠ [])
    (Hsl : h.getLast? ≠ some '/')
    (Hb1 : startswith h "ws://".data = false)
    (Hb2 : startswith h "wss://".data = false)
    (Hb3 : startswith h "http://".data = false)
    (Hb4 : startswith h "https://".data = false)
    (HA : endswith ("ws://".data ++ h) "/api/current".data = false)
    (HB : endswith ("wss://".data ++ h) "/api/current".data = false) :
    ws_api_url h = "wss://".data ++ h ++ "/api/current".data
    ∧ ws_api_url ("http://".data ++ h) = "ws://".data ++ h ++ "/api/current".data
    ∧ ws_api_url ("https://".data ++ h) = "wss://".data ++ h ++ "/api/current".data
    ∧ ws_api_url ("ws://".data ++ h) = "ws://".data ++ h ++ "/api/current".data
    ∧ ws_api_url ("wss://".data ++ h) = "wss://".data ++ h ++ "/api/current".data
    ∧ (∀ host, endswith (build_ws_base host) "/api/current".data = true →
        ws_api_url host = build_ws_base host)
    ∧ (∀ host, endswith (ws_api_url host) "/api/current".data = true) := by
  refine ⟨?_, ?_, ?_, ?_, ?_, ?_, ?_⟩
  · simp only [ws_api_url]
    rw [build_ws_base_bare h Hws Hb1 Hb2 Hb3 Hb4, HB]
    simp
  · simp only [ws_api_url]
    rw [build_ws_base_http h Hws Hsl, HA]
    simp
  · simp only [ws_api_url]
    rw [build_ws_base_https h Hws Hsl, HB]
    simp
  · simp only [ws_api_url]
    rw [build_ws_base_ws h Hws Hnil Hsl, HA]
    simp
  · simp only [ws_api_url]
    rw [build_ws_base_wss h Hws Hnil Hsl, HB]
    simp
  · intro host H
    simp only [ws_api_url]
    rw [H]
    simp
  · intro host
    simp only [ws_api_url]
    cases hc : endswith (build_ws_base host) "/api/current".data with
    | true => simp [hc]
    | false => simp [hc, endswith_append_self]

/-- Witness for C1 at the concrete host `truenas.local`: the bare form is
normalized to `wss://truenas.local/api/current`. -/
theorem C1_ws_url_normalizer_witness :
    ws_api_url "truenas.local".data =
      "wss://".data ++ "truenas.local".data ++ "/api/current".data :=
  (C1_ws_url_normalizer "truenas.local".data (by decide) (by decide) (by decide)
    (by decide) (by decide) (by decide) (by decide) (by decide) (by decide)).1

/-- C4: for every download URL, the fetcher uses the URL unchanged when it
starts with `http://` or `https://`, and otherwise prefixes the normalized
HTTP base address; `build_http_base` maps `ws://` to `http://`, `wss://` to
`https://`, a bare host to `https://`, passes `http(s)://` through, and
strips a trailing slash.  In particular a relative URL against a bare host
resolves to `https://` + host + URL. -/
theorem C4_http_url_resolver (h url : Str)
    (Hws : ∀ c ∈ h, isspace c = false)
    (Hnil : h ≠ [])
    (Hsl : h.getLast? ≠ some '/')
    (Hb1 : startswith h "ws://".data = false)
    (Hb2 : startswith h "wss://".data = false)
    (Hb3 : startswith h "http://".data = false)
    (Hb4 : startswith h "https://".data = false)
    (Hu1 : startswith url "http://".data = false)
    (Hu2 : startswith url "https://".data = false) :
    build_http_base h = "https://".data ++ h
    ∧ build_http_base ("http://".data ++ h) = "http://".data ++ h
    ∧ build_http_base ("https://".data ++ h) = "https://".data ++ h
    ∧ build_http_base ("ws://".data ++ h) = "http://".data ++ h
    ∧ build_http_base ("wss://".data ++ h) = "https://".data ++ h
    ∧ build_http_base ("https://".data ++ (h ++ ['/'])) = "https://".data ++ h
    ∧ (∀ host u, startswith u "http://".data = true →
        resolve_download_url host u = u)
    ∧ (∀ host u, startswith u "https://".data = true →
        resolve_download_url host u = u)
    ∧ resolve_download_url h url = "https://".data ++ h ++ url := by
  refine ⟨build_http_base_bare h Hws Hb1 Hb2 Hb3 Hb4,
    build_http_base_http h Hws Hnil Hsl,
    build_http_base_https h Hws Hnil Hsl,
    build_http_base_ws h Hws Hsl,
    build_http_base_wss h Hws Hsl, ?_, ?_, ?_, ?_⟩
  · have hstrip : pyStrip ("https://".data ++ (h ++ ['/'])) =
        "https://".data ++ (h ++ ['/']) :=
      pyStrip_eq_self _ (noWS_append _ _ (by decide)
        (noWS_append h ['/'] Hws (by decide)))
    have hc1 : startswith ("https://".data ++ (h ++ ['/'])) "http://".data
        = false := by
      simp [startswith, List.isPrefixOf]
    have hc2 : startswith ("https://".data ++ (h ++ ['/'])) "https://".data
        = true := isPrefixOf_append_self _ _
    have hor : (startswith ("https://".data ++ (h ++ ['/'])) "http://".data ||
        startswith ("https://".data ++ (h ++ ['/'])) "https://".data) = true := by
      rw [hc1, hc2]
      rfl
    have hrs : rstripSlash ("https://".data ++ (h ++ ['/'])) =
        "https://".data ++ h := by
      have e : "https://".data ++ (h ++ ['/']) =
          ("https://".data ++ h) ++ ['/'] := by simp
      rw [e, rstripSlash_append_slash]
      refine rstripSlash_eq_self _ ?_
      rw [getLast?_append_right _ h Hnil]
      exact Hsl
    simp only [build_http_base]
    rw [hstrip, hor, hrs]
    simp
  · intro host u H
    simp only [resolve_download_url]
    rw [H]
    simp
  · intro host u H
    simp only [resolve_download_url]
    rw [H]
    simp
  · simp only [resolve_download_url, http_api_base]
    rw [Hu1, Hu2, build_http_base_bare h Hws Hb1 Hb2 Hb3 Hb4]
    simp

/-- Witness for C4: the relative URL `/download/1` against host
`truenas.local` resolves to `https://truenas.local/download/1`. -/
theorem C4_http_url_resolver_witness :
    resolve_download_url "truenas.local".data "/download/1".data =
      "https://".data ++ "truenas.local".data ++ "/download/1".data :=
  (C4_http_url_resolver "truenas.local".data "/download/1".data (by decide)
    (by decide) (by decide) (by decide) (by decide) (by decide) (by decide)
    (by decide) (by decide)).2.2.2.2.2.2.2.2

/-! Reply parsing in `start_download_session` (backup.py lines 90-100).
Values reaching the parser are embedded as `Option String` (`none` is
Python `None` or an absent key); Python truthiness of such a value is
"present and non-empty". -/

/-- Python truthiness of a `None`-or-string value. -/
def pyTruthy (o : Option String) : Bool :=
  match o with
  | none => false
  | some s => !(s == "")

/-- Python `a or b` on `None`-or-string values: `b` unless `a` is truthy. -/
def pyOr (a b : Option String) : Option String :=
  if pyTruthy a then a else b

/-- Python `o or ''`. -/
def pyOrEmpty (o : Option String) : String :=
  if pyTruthy o then o.getD "" else ""

/-- Shape of a `core.download` reply as inspected by the code: a mapping
(only the five consulted keys are retained), a sequence, or anything else. -/
inductive Reply where
  | dict (url result job_url token auth_token : Option String)
  | arr (items : List (Option String))
  | other

/-- The reply-parsing tail of `start_download_session` (backup.py lines
90-100): mapping replies take `url or result or job_url` and
`token or auth_token`; sequence replies of length at least 2 take index 1
and (when present) index 2; any other shape raises `Unexpected response`;
a non-truthy URL raises `No download URL`. -/
def start_download_session_parse : Reply → Except String (String × String)
  | .dict u r j t a =>
    let dl := pyOr (pyOr u r) j
    if pyTruthy dl then Except.ok (dl.getD "", pyOrEmpty (pyOr t a))
    else Except.error "No download URL returned by core.download"
  | .arr items =>
    if 2 ≤ items.length then
      let dl := (items.get? 1).join
      let tok := if 3 ≤ items.length then (items.get? 2).join else none
      if pyTruthy dl then Except.ok (dl.getD "", pyOrEmpty tok)
      else Except.error "No download URL returned by core.download"
    else Except.error "Unexpected response from core.download"
  | .other => Except.error "Unexpected response from core.download"

/-- The parser exactly as claim C2 words it: the URL is the first PRESENT
value among url, result, job_url and the token the first PRESENT value among
token, auth_token (present-with-empty-value counts).  Used only to exhibit
the divergence from the code. -/
def claim_c2_parse : Reply → Except String (String × String)
  | .dict u r j t a =>
    (match (match u with | some x => some x | none => r) with
      | some x => some x
      | none => j).elim
      (Except.error "No download URL returned by core.download")
      (fun s => Except.ok (s, ((match t with | some x => some x | none => a)).getD ""))
  | .arr items =>
    if 2 ≤ items.length then
      ((items.get? 1).join).elim
        (Except.error "No download URL returned by core.download")
        (fun s => Except.ok (s, ((items.get? 2).join).getD ""))
    else Except.error "Unexpected response from core.download"
  | .other => Except.error "Unexpected response from core.download"

/-- First non-empty (truthy) value of a list of `None`-or-string values;
the spec-side description that actually matches the code. -/
def firstNonEmpty : List (Option String) → Option String
  | [] => none
  | none :: rest => firstNonEmpty rest
  | some s :: rest => if s == "" then firstNonEmpty rest else some s

theorem fne_cons (x : Option String) (rest : List (Option String)) :
    firstNonEmpty (x :: rest) =
      if pyTruthy x then some (x.getD "") else firstNonEmpty rest := by
  rcases x with _ | s
  · simp [firstNonEmpty, pyTruthy]
  · by_cases h : s = "" <;> simp [firstNonEmpty, pyTruthy, h]

theorem pyOr_fne2 (t a : Option String) :
    pyOrEmpty (pyOr t a) = (firstNonEmpty [t, a]).getD "" := by
  rw [fne_cons t [a], fne_cons a []]
  cases ht : pyTruthy t with
  | true => simp [pyOr, pyOrEmpty, ht]
  | false =>
    cases ha : pyTruthy a with
    | true => simp [pyOr, pyOrEmpty, ht, ha]
    | false => simp [pyOr, pyOrEmpty, ht, ha, firstNonEmpty]

theorem parse_dict_eq (u r j t a : Option String) :
    start_download_session_parse (Reply.dict u r j t a) =
      match firstNonEmpty [u, r, j] with
      | some s => Except.ok (s, (firstNonEmpty [t, a]).getD "")
      | none => Except.error "No download URL returned by core.download" := by
  simp only [start_download_session_parse]
  rw [pyOr_fne2 t a]
  rw [fne_cons u [r, j], fne_cons r [j], fne_cons j []]
  cases hu : pyTruthy u with
  | true => simp [pyOr, hu]
  | false =>
    cases hr : pyTruthy r with
    | true => simp [pyOr, hu, hr]
    | false =>
      cases hj : pyTruthy j with
      | true => simp [pyOr, hu, hr, hj]
      | false => simp [pyOr, hu, hr, hj, firstNonEmpty]

theorem parse_arr_cons (x u : Option String) (rest : List (Option String)) :
    start_download_session_parse (Reply.arr (x :: u :: rest)) =
      match firstNonEmpty [u] with
      | some s => Except.ok (s, (firstNonEmpty [(rest.get? 0).join]).getD "")
      | none => Except.error "No download URL returned by core.download" := by
  rw [fne_cons u []]
  cases rest with
  | nil =>
    cases hu : pyTruthy u with
    | true =>
      simp [start_download_session_parse, hu, firstNonEmpty, pyOrEmpty]
    | false =>
      simp [start_download_session_parse, hu, firstNonEmpty]
  | cons y ys =>
    have htok : pyOrEmpty y = (firstNonEmpty [y]).getD "" := by
      rw [fne_cons y []]
      cases hy : pyTruthy y with
      | true => simp [pyOrEmpty, hy]
      | false => simp [pyOrEmpty, hy, firstNonEmpty]
    cases hu : pyTruthy u with
    | true =>
      simp [start_download_session_parse, hu, htok]
    | false =>
      simp [start_download_session_parse, hu, firstNonEmpty]

/-- C2 counterexample: for the mapping reply with url = "/d",
token = "" (present but empty), auth_token = "abc", the code returns token
"abc", while the claim ("first present value among token, auth_token")
demands the empty string. -/
theorem C2_counterexample :
    start_download_session_parse
        (Reply.dict (some "/d") none none (some "") (some "abc"))
      = Except.ok ("/d", "abc")
    ∧ claim_c2_parse (Reply.dict (some "/d") none none (some "") (some "abc"))
      = Except.ok ("/d", "")
    ∧ ("abc" : String) ≠ "" := by
  refine ⟨rfl, rfl, by decide⟩

/-- C2 (amended): the reply parser returns, for a mapping reply, the first
non-empty (truthy) value among keys url, result, job_url as the URL and
among token, auth_token as the token; for a sequence reply of length at
least 2, index 1 as the URL and index 2 (if present) as the token; a missing
or empty token yields the empty string; any other reply shape, or a missing
or empty URL, yields a Protocol error.  In particular
a mapping with url "/download/1" and token "abc" yields ("/download/1","abc")
and the sequence ["ok", "/download/2"] yields ("/download/2",""). -/
theorem C2_reply_parsing :
    (∀ u r j t a,
      start_download_session_parse (Reply.dict u r j t a) =
        match firstNonEmpty [u, r, j] with
        | some s => Except.ok (s, (firstNonEmpty [t, a]).getD "")
        | none => Except.error "No download URL returned by core.download")
    ∧ (∀ x u rest,
      start_download_session_parse (Reply.arr (x :: u :: rest)) =
        match firstNonEmpty [u] with
        | some s => Except.ok (s, (firstNonEmpty [(rest.get? 0).join]).getD "")
        | none => Except.error "No download URL returned by core.download")
    ∧ start_download_session_parse (Reply.arr [])
        = Except.error "Unexpected response from core.download"
    ∧ (∀ x, start_download_session_parse (Reply.arr [x])
        = Except.error "Unexpected response from core.download")
    ∧ start_download_session_parse Reply.other
        = Except.error "Unexpected response from core.download"
    ∧ start_download_session_parse
        (Reply.dict (some "/download/1") none none (some "abc") none)
        = Except.ok ("/download/1", "abc")
    ∧ start_download_session_parse (Reply.arr [some "ok", some "/download/2"])
        = Except.ok ("/download/2", "") := by
  refine ⟨parse_dict_eq, parse_arr_cons, rfl, fun x => rfl, rfl, rfl, rfl⟩

/-! Retention pruning (`enforce_retention`, backup.py lines 118-130).  The
output directory is embedded as a list of entries.  `deletable = false`
models a file whose `unlink` raises (locked / already removed); the code
swallows that exception, so the entry stays.  Deletion is by path, hence by
name within one directory. -/

/-- A directory entry: name, filesystem modification time, whether it is a
regular file, and whether an unlink of it would succeed. -/
structure FileEntry where
  name : String
  mtime : Int
  isFile : Bool
  deletable : Bool
deriving DecidableEq

/-- The glob pattern `truenas_config_*.tar`: fixed head, fixed tail, and a
long-enough name so that the star matches a (possibly empty) middle part. -/
def matchesPattern (n : String) : Bool :=
  startswith n.data "truenas_config_".data && endswith n.data ".tar".data &&
    decide (19 <= n.data.length)

/-- The filter applied to directory entries: regular files matching the
backup pattern. -/
def retentionPred (f : FileEntry) : Bool := f.isFile && matchesPattern f.name

/-- Sort order used by `enforce_retention`: descending modification time. -/
def newerEq (a b : FileEntry) : Prop := b.mtime <= a.mtime

instance : DecidableRel newerEq := fun a b =>
  inferInstanceAs (Decidable (b.mtime <= a.mtime))

instance : IsTotal FileEntry newerEq := ⟨fun a b => le_total b.mtime a.mtime⟩

instance : IsTrans FileEntry newerEq := ⟨fun _ _ _ h1 h2 => le_trans h2 h1⟩

/-- The matching files sorted by modification time descending. -/
def backupCandidates (files : List FileEntry) : List FileEntry :=
  List.insertionSort newerEq (files.filter retentionPred)

/-- The files the pruning loop attempts to unlink: everything after the
first `retention` candidates; empty when retention <= 0 since the function
returns before the loop. -/
def victims (files : List FileEntry) (retention : Int) : List FileEntry :=
  if retention <= 0 then [] else (backupCandidates files).drop retention.toNat

/-- `enforce_retention` (backup.py lines 118-130): no-op for retention <= 0;
otherwise each victim is unlinked, and a failing unlink is swallowed,
leaving that entry in place. -/
def enforce_retention (files : List FileEntry) (retention : Int) :
    List FileEntry :=
  if retention <= 0 then files
  else files.filter (fun f =>
    !(f.deletable && (victims files retention).any (fun v => v.name == f.name)))

/-- Number of strictly newer entries the pruning pass also considers: the
rank of `f` in the descending order. -/
def newerCount (files : List FileEntry) (f : FileEntry) : Nat :=
  List.countP (fun g => decide (f.mtime < g.mtime) && retentionPred g) files

/-! Sorting facts used to characterize retention. -/

theorem rank_take (f : FileEntry) :
    ∀ (s : List FileEntry), s.Pairwise (fun a b => b.mtime < a.mtime) →
      f ∈ s → ∀ N : Nat,
      (f ∈ s.take N ↔
        List.countP (fun g => decide (f.mtime < g.mtime)) s < N) := by
  intro s
  induction s with
  | nil => intro _ hf; cases hf
  | cons a t ih =>
    intro hs hf N
    have hpair := List.pairwise_cons.mp hs
    rcases List.mem_cons.mp hf with rfl | hft
    · cases N with
      | zero => simp
      | succ n =>
        have hcount :
            List.countP (fun g => decide (f.mtime < g.mtime)) (f :: t) = 0 := by
          refine List.countP_eq_zero.mpr ?_
          intro g hg
          rcases List.mem_cons.mp hg with rfl | hgt
          · simp
          · have := hpair.1 g hgt
            simp
            omega
        have hmem : f ∈ (f :: t).take (n + 1) := by
          rw [List.take_succ_cons]
          exact List.mem_cons_self _ _
        refine iff_of_true hmem ?_
        rw [hcount]
        omega
    · have hflt : f.mtime < a.mtime := hpair.1 f hft
      have hfa : f ≠ a := by
        intro e
        rw [e] at hflt
        exact lt_irrefl _ hflt
      cases N with
      | zero => simp
      | succ n =>
        have hpa : (decide (f.mtime < a.mtime)) = true := decide_eq_true hflt
        have hcnt : List.countP (fun g => decide (f.mtime < g.mtime)) (a :: t)
            = List.countP (fun g => decide (f.mtime < g.mtime)) t + 1 := by
          rw [List.countP_cons]
          simp [hpa]
        rw [List.take_succ_cons, hcnt, List.mem_cons]
        have hrec := ih hpair.2 hft n
        constructor
        · intro hmem
          rcases hmem with he | hmem
          · exact absurd he hfa
          · have := hrec.mp hmem
            omega
        · intro hlt
          exact Or.inr (hrec.mpr (by omega))

theorem victims_subset (files : List FileEntry) (N : Int) :
    ∀ v ∈ victims files N, v ∈ files ∧ retentionPred v = true := by
  intro v hv
  unfold victims at hv
  by_cases hN : N <= 0
  · rw [if_pos hN] at hv
    cases hv
  · rw [if_neg hN] at hv
    have h1 : v ∈ backupCandidates files := List.drop_subset _ _ hv
    have h2 : v ∈ files.filter retentionPred :=
      (List.perm_insertionSort newerEq _).mem_iff.mp h1
    exact ⟨(List.mem_filter.mp h2).1, (List.mem_filter.mp h2).2⟩

theorem candidates_strict (files : List FileEntry)
    (hmt : ((files.filter retentionPred).map FileEntry.mtime).Nodup) :
    (backupCandidates files).Pairwise (fun a b => b.mtime < a.mtime) := by
  have hsorted : List.Sorted newerEq (backupCandidates files) :=
    List.sorted_insertionSort newerEq _
  have hperm := List.perm_insertionSort newerEq (files.filter retentionPred)
  have hmapnd : ((backupCandidates files).map FileEntry.mtime).Nodup :=
    (hperm.map FileEntry.mtime).nodup_iff.mpr hmt
  have hpairne : (backupCandidates files).Pairwise
      (fun a b : FileEntry => a.mtime ≠ b.mtime) := List.pairwise_map.mp hmapnd
  exact (List.Pairwise.and hsorted hpairne).imp
    (fun h => lt_of_le_of_ne h.1 (Ne.symm h.2))

theorem retention_char (files : List FileEntry) (N : Int)
    (hN : 0 < N)
    (hnames : (files.map FileEntry.name).Nodup)
    (hmt : ((files.filter retentionPred).map FileEntry.mtime).Nodup)
    (hdel : ∀ f ∈ files, f.deletable = true) :
    ∀ f ∈ files,
      (retentionPred f = false → f ∈ enforce_retention files N)
      ∧ (retentionPred f = true →
          (f ∈ enforce_retention files N ↔ newerCount files f < N.toNat)) := by
  have hNle : ¬ (N <= 0) := not_le.mpr hN
  have hinj : ∀ x ∈ files, ∀ y ∈ files, x.name = y.name → x = y :=
    fun x hx y hy e => List.inj_on_of_nodup_map hnames hx hy e
  intro f hfin
  constructor
  · intro hnp
    rw [enforce_retention, if_neg hNle, List.mem_filter]
    refine ⟨hfin, ?_⟩
    suffices hany : ((victims files N).any (fun v => v.name == f.name)) = false by
      simp [hany]
    cases hany : (victims files N).any (fun v => v.name == f.name) with
    | false => rfl
    | true =>
      exfalso
      obtain ⟨v, hv, hveq⟩ := List.any_eq_true.mp hany
      have hvn : v.name = f.name := by simpa using hveq
      obtain ⟨hvf, hvp⟩ := victims_subset files N v hv
      have : v = f := hinj v hvf f hfin hvn
      rw [this, hnp] at hvp
      cases hvp
  · intro hp
    have hfm : f ∈ files.filter retentionPred := List.mem_filter.mpr ⟨hfin, hp⟩
    have hperm := List.perm_insertionSort newerEq (files.filter retentionPred)
    have hfs : f ∈ backupCandidates files := hperm.mem_iff.mpr hfm
    have hstrict := candidates_strict files hmt
    have hnds : (backupCandidates files).Nodup := by
      have hfilesnd : files.Nodup := List.Nodup.of_map _ hnames
      exact hperm.nodup_iff.mpr (hfilesnd.filter _)
    have hsplit := List.take_append_drop N.toNat (backupCandidates files)
    have hdisj : ((backupCandidates files).take N.toNat).Disjoint
        ((backupCandidates files).drop N.toNat) := by
      rw [← hsplit] at hnds
      exact (List.nodup_append.mp hnds).2.2
    have hvic : victims files N = (backupCandidates files).drop N.toNat := by
      rw [victims, if_neg hNle]
    have hdf : f.deletable = true := hdel f hfin
    have hiff1 : (f ∈ enforce_retention files N) ↔
        ((victims files N).any (fun v => v.name == f.name)) = false := by
      rw [enforce_retention, if_neg hNle, List.mem_filter]
      constructor
      · rintro ⟨_, hbool⟩
        rw [hdf] at hbool
        simpa using hbool
      · intro hany
        exact ⟨hfin, by simp [hdf, hany]⟩
    have hiff2 : ((victims files N).any (fun v => v.name == f.name)) = false ↔
        f ∉ victims files N := by
      constructor
      · intro hany hmem
        have htrue : (victims files N).any (fun v => v.name == f.name) = true :=
          List.any_eq_true.mpr ⟨f, hmem, by simp⟩
        rw [hany] at htrue
        cases htrue
      · intro hnot
        cases hany : (victims files N).any (fun v => v.name == f.name) with
        | false => rfl
        | true =>
          exfalso
          obtain ⟨v, hv, hveq⟩ := List.any_eq_true.mp hany
          have hvn : v.name = f.name := by simpa using hveq
          obtain ⟨hvf, _⟩ := victims_subset files N v hv
          have : v = f := hinj v hvf f hfin hvn
          exact hnot (this ▸ hv)
    have hiff3 : f ∉ victims files N ↔
        f ∈ (backupCandidates files).take N.toNat := by
      rw [hvic]
      constructor
      · intro hnv
        have hmemapp : f ∈ (backupCandidates files).take N.toNat ++
            (backupCandidates files).drop N.toNat := by
          rw [hsplit]
          exact hfs
        rcases List.mem_append.mp hmemapp with h | h
        · exact h
        · exact absurd h hnv
      · intro ht hd
        exact hdisj ht hd
    have hiff4 := rank_take f (backupCandidates files) hstrict hfs N.toNat
    have hcount : List.countP (fun g => decide (f.mtime < g.mtime))
        (backupCandidates files) = newerCount files f := by
      unfold backupCandidates
      rw [hperm.countP_eq, List.countP_filter]
      rfl
    rw [hcount] at hiff4
    exact hiff1.trans (hiff2.trans (hiff3.trans hiff4))

/-- C3: for every directory listing and retention count N, `enforce_retention`
is a no-op when N <= 0; when N > 0 (with unique names, distinct matching
mtimes, and deletable files) it considers exactly the regular files matching
`truenas_config_*.tar`: a non-matching entry always remains, and a matching
entry remains iff fewer than N matching entries are strictly newer, i.e. the
N newest matching files are kept and every other matching file is deleted. -/
theorem C3_retention_prunes_oldest (files : List FileEntry) (N : Int) :
    (N <= 0 → enforce_retention files N = files)
    ∧ (0 < N →
        (files.map FileEntry.name).Nodup →
        ((files.filter retentionPred).map FileEntry.mtime).Nodup →
        (∀ f ∈ files, f.deletable = true) →
        ∀ f ∈ files,
          (retentionPred f = false → f ∈ enforce_retention files N)
          ∧ (retentionPred f = true →
              (f ∈ enforce_retention files N ↔
                newerCount files f < N.toNat))) := by
  refine ⟨?_, ?_⟩
  · intro h
    rw [enforce_retention, if_pos h]
  · intro hN hnames hmt hdel
    exact retention_char files N hN hnames hmt hdel

/-- A backup file entry as written by the tool. -/
def bkFile (ts : String) (m : Int) : FileEntry :=
  ⟨"truenas_config_" ++ ts ++ ".tar", m, true, true⟩

/-- Five backup files with distinct known mtimes. -/
def fs5 : List FileEntry :=
  [bkFile "20250101_000000" 1, bkFile "20250102_000000" 2,
   bkFile "20250103_000000" 3, bkFile "20250104_000000" 4,
   bkFile "20250105_000000" 5]

/-- Witness for C3: with N = 3 and the five files of `fs5`, the newest file
remains and the oldest is removed; with N = 0 all five remain. -/
theorem C3_retention_prunes_oldest_witness :
    enforce_retention fs5 0 = fs5
    ∧ bkFile "20250105_000000" 5 ∈ enforce_retention fs5 3
    ∧ bkFile "20250101_000000" 1 ∉ enforce_retention fs5 3 := by
  refine ⟨(C3_retention_prunes_oldest fs5 0).1 (by decide), ?_, ?_⟩
  · exact (((C3_retention_prunes_oldest fs5 3).2 (by decide) (by decide)
      (by decide) (by decide) (bkFile "20250105_000000" 5) (by decide)).2
      (by decide)).mpr (by decide)
  · intro hmem
    have h := (((C3_retention_prunes_oldest fs5 3).2 (by decide) (by decide)
      (by decide) (by decide) (bkFile "20250101_000000" 1) (by decide)).2
      (by decide)).mp hmem
    exact absurd h (by decide)

/-! Credentials, HTTP fetch, and the `main` control flow (backup.py lines
16-25, 103-115, 133-170). -/

/-- Python `str.strip()` on a whole string value. -/
def pyStripS (s : String) : String := String.mk (pyStrip s.data)

/-- `read_api_key` (backup.py lines 16-25): explicit flag if truthy, else
key-file contents if the flag is truthy, else the environment variable if
truthy, else nothing.  `fileRead` supplies the contents of a path. -/
def read_api_key (explicit_key api_key_file : Option String)
    (env_key : Option String) (fileRead : String → String) : Option String :=
  if pyTruthy explicit_key then some (pyStripS (explicit_key.getD ""))
  else if pyTruthy api_key_file then
    some (pyStripS (fileRead (api_key_file.getD "")))
  else if pyTruthy env_key then some (pyStripS (env_key.getD ""))
  else none

/-- An HTTP response: final status code and body. -/
structure HttpResp where
  status : Nat
  body : String
deriving DecidableEq

/-- An exception escaping the guarded download phase. -/
inductive PyErr where
  | http (status : Nat) (body : String)
  | other (msg : String)
deriving DecidableEq

/-- `Response.raise_for_status` of the requests library, called at
backup.py line 114: raises HTTPError exactly for status codes 400-599. -/
def raise_for_status (r : HttpResp) : Except PyErr Unit :=
  if 400 <= r.status ∧ r.status < 600 then
    Except.error (PyErr.http r.status r.body)
  else Except.ok ()

/-- Response handling of `download_file` (backup.py lines 113-115): a
transport failure surfaces as a generic exception, a 4xx/5xx response as an
HTTPError via `raise_for_status`, otherwise the body is returned. -/
def download_file_response (g : Except String HttpResp) : Except PyErr String :=
  match g with
  | Except.error m => Except.error (PyErr.other m)
  | Except.ok r =>
    match raise_for_status r with
    | Except.error e => Except.error e
    | Except.ok _ => Except.ok r.body

/-- The parsed command line. -/
structure Args where
  host : String
  api_key : Option String
  api_key_file : Option String
  include_secrets : Bool
  no_verify_tls : Bool
  retention : Int

/-- Outcome of one run: a clean exit (code, optional stderr diagnostic,
resulting directory, written file name) or an unhandled exception
(traceback printed by the interpreter). -/
inductive RunOutcome where
  | exited (code : Nat) (stderr : Option String) (files : List FileEntry)
      (wrote : Option String)
  | crashed (msg : String) (files : List FileEntry)
deriving DecidableEq

/-- The one-line diagnostic `main` prints for a caught exception
(backup.py lines 156-161). -/
def diag : PyErr → String
  | PyErr.http s b => "HTTP error: " ++ toString s ++ " " ++ b
  | PyErr.other m => "Error: " ++ m

/-- The missing-credentials diagnostic (backup.py line 148). -/
def missingKeyMsg : String :=
  "Error: API key not provided. Use --api-key, --api-key-file, or TRUENAS_API_KEY env."

/-- `main` (backup.py lines 133-170).  The environment is explicit:
`env_key` is TRUENAS_API_KEY, `fileRead` the key-file contents, `net` the
combined outcome of `start_download_session` + `download_file` (the guarded
phase), `filesBefore` the out-dir listing, `ts`/`nowMtime` the clock, and
`writeOk` whether the final file write succeeds.  The write at line 165 sits
outside the try block, so its failure is an unhandled exception. -/
def backup_main (a : Args) (env_key : Option String)
    (fileRead : String → String) (net : Except PyErr String)
    (filesBefore : List FileEntry) (ts : String) (nowMtime : Int)
    (writeOk : Bool) : RunOutcome :=
  let key := read_api_key a.api_key a.api_key_file env_key fileRead
  if !(pyTruthy key) then
    RunOutcome.exited 2 (some missingKeyMsg) filesBefore none
  else
    match net with
    | Except.error e =>
      RunOutcome.exited 1 (some (diag e)) filesBefore none
    | Except.ok _content =>
      if writeOk then
        RunOutcome.exited 0 none
          (enforce_retention (filesBefore ++ [bkFile ts nowMtime]) a.retention)
          (some (bkFile ts nowMtime).name)
      else
        RunOutcome.crashed "unhandled exception during file write" filesBefore

/-! Evaluation helpers for `backup_main`. -/

theorem backup_main_nokey (a : Args) (env : Option String)
    (fr : String → String) (net : Except PyErr String)
    (files : List FileEntry) (ts : String) (mt : Int) (w : Bool)
    (hkey : pyTruthy (read_api_key a.api_key a.api_key_file env fr) = false) :
    backup_main a env fr net files ts mt w
      = RunOutcome.exited 2 (some missingKeyMsg) files none := by
  simp [backup_main, hkey]

theorem backup_main_error (a : Args) (env : Option String)
    (fr : String → String) (e : PyErr)
    (files : List FileEntry) (ts : String) (mt : Int) (w : Bool)
    (hkey : pyTruthy (read_api_key a.api_key a.api_key_file env fr) = true) :
    backup_main a env fr (Except.error e) files ts mt w
      = RunOutcome.exited 1 (some (diag e)) files none := by
  simp [backup_main, hkey]

theorem backup_main_success (a : Args) (env : Option String)
    (fr : String → String) (c : String)
    (files : List FileEntry) (ts : String) (mt : Int)
    (hkey : pyTruthy (read_api_key a.api_key a.api_key_file env fr) = true) :
    backup_main a env fr (Except.ok c) files ts mt true
      = RunOutcome.exited 0 none
          (enforce_retention (files ++ [bkFile ts mt]) a.retention)
          (some (bkFile ts mt).name) := by
  simp [backup_main, hkey]

theorem backup_main_writefail (a : Args) (env : Option String)
    (fr : String → String) (c : String)
    (files : List FileEntry) (ts : String) (mt : Int)
    (hkey : pyTruthy (read_api_key a.api_key a.api_key_file env fr) = true) :
    backup_main a env fr (Except.ok c) files ts mt false
      = RunOutcome.crashed "unhandled exception during file write" files := by
  simp [backup_main, hkey]

/-- C5 counterexample: an HTTP 304 response is not 2xx, yet `download_file`
returns its body instead of failing with an HTTP error, because
`raise_for_status` only raises for 4xx/5xx. -/
theorem C5_counterexample :
    download_file_response (Except.ok ⟨304, "not modified"⟩)
      = Except.ok "not modified"
    ∧ ¬ (200 <= 304 ∧ 304 < 300) := by
  exact ⟨rfl, by omega⟩

/-- C5 (amended): a fetch whose response status is 4xx/5xx fails with an
HTTP error carrying the status and body (never returning bytes), and the
run then exits 1 printing them, writing no backup file; a 2xx response
returns the full body (as does any status outside 400-599, e.g. 304);
a transport failure surfaces as a generic error. -/
theorem C5_http_error_handling :
    (∀ (s : Nat) (b : String), 400 <= s → s < 600 →
      download_file_response (Except.ok ⟨s, b⟩)
        = Except.error (PyErr.http s b))
    ∧ (∀ (s : Nat) (b : String), 200 <= s → s < 300 →
      download_file_response (Except.ok ⟨s, b⟩) = Except.ok b)
    ∧ (∀ (s : Nat) (b : String), ¬ (400 <= s ∧ s < 600) →
      download_file_response (Except.ok ⟨s, b⟩) = Except.ok b)
    ∧ (∀ m : String, download_file_response (Except.error m)
        = Except.error (PyErr.other m))
    ∧ (∀ (a : Args) (env : Option String) (fr : String → String)
        (files : List FileEntry) (ts : String) (mt : Int) (w : Bool)
        (s : Nat) (b : String),
      pyTruthy (read_api_key a.api_key a.api_key_file env fr) = true →
      400 <= s → s < 600 →
      backup_main a env fr (download_file_response (Except.ok ⟨s, b⟩))
          files ts mt w
        = RunOutcome.exited 1
            (some ("HTTP error: " ++ toString s ++ " " ++ b)) files none) := by
  have herr : ∀ (s : Nat) (b : String), 400 <= s → s < 600 →
      download_file_response (Except.ok ⟨s, b⟩)
        = Except.error (PyErr.http s b) := by
    intro s b h1 h2
    simp [download_file_response, raise_for_status, h1, h2]
  refine ⟨herr, ?_, ?_, ?_, ?_⟩
  · intro s b h1 h2
    have hno : ¬ (400 <= s ∧ s < 600) := by omega
    simp [download_file_response, raise_for_status, hno]
  · intro s b hno
    simp [download_file_response, raise_for_status, hno]
  · intro m
    rfl
  · intro a env fr files ts mt w s b hkey h1 h2
    rw [herr s b h1 h2, backup_main_error a env fr _ files ts mt w hkey]
    rfl

/-- Witness for C5 at HTTP 403: the fetch fails with an HTTPError carrying
status 403 and the body text, and the run exits 1 printing them, writing
nothing. -/
theorem C5_http_error_handling_witness :
    download_file_response (Except.ok ⟨403, "Forbidden"⟩)
      = Except.error (PyErr.http 403 "Forbidden")
    ∧ backup_main ⟨"truenas.local", some "k", none, false, false, 14⟩ none
        (fun _ => "") (download_file_response (Except.ok ⟨403, "Forbidden"⟩))
        [] "20250101_000000" 0 true
      = RunOutcome.exited 1
          (some ("HTTP error: " ++ toString (403 : Nat) ++ " " ++ "Forbidden"))
          [] none := by
  refine ⟨C5_http_error_handling.1 403 "Forbidden" (by omega) (by omega), ?_⟩
  exact C5_http_error_handling.2.2.2.2
    ⟨"truenas.local", some "k", none, false, false, 14⟩ none (fun _ => "")
    [] "20250101_000000" 0 true 403 "Forbidden" (by decide) (by omega) (by omega)

/-- C6: credential resolution priority `--api-key` > `--api-key-file` >
`TRUENAS_API_KEY`: the stripped explicit value when that flag is truthy,
else the stripped key-file contents when that flag is truthy, else the
stripped environment value when truthy, else no key; with all three set the
explicit flag wins. -/
theorem C6_credential_priority :
    (∀ (k : String) (f e : Option String) (fr : String → String),
      pyTruthy (some k) = true →
      read_api_key (some k) f e fr = some (pyStripS k))
    ∧ (∀ (ek : Option String) (p : String) (e : Option String)
        (fr : String → String),
      pyTruthy ek = false → pyTruthy (some p) = true →
      read_api_key ek (some p) e fr = some (pyStripS (fr p)))
    ∧ (∀ (ek f : Option String) (ev : String) (fr : String → String),
      pyTruthy ek = false → pyTruthy f = false → pyTruthy (some ev) = true →
      read_api_key ek f (some ev) fr = some (pyStripS ev))
    ∧ (∀ (ek f e : Option String) (fr : String → String),
      pyTruthy ek = false → pyTruthy f = false → pyTruthy e = false →
      read_api_key ek f e fr = none)
    ∧ (∀ (k p ev : String) (fr : String → String),
      pyTruthy (some k) = true →
      read_api_key (some k) (some p) (some ev) fr = some (pyStripS k)) := by
  refine ⟨?_, ?_, ?_, ?_, ?_⟩
  · intro k f e fr h
    simp [read_api_key, h]
  · intro ek p e fr h1 h2
    simp [read_api_key, h1, h2]
  · intro ek f ev fr h1 h2 h3
    simp [read_api_key, h1, h2, h3]
  · intro ek f e fr h1 h2 h3
    simp [read_api_key, h1, h2, h3]
  · intro k p ev fr h
    simp [read_api_key, h]

/-- Witness for C6: all three sources set; the explicit flag value
" key-a " is used (stripped to "key-a"). -/
theorem C6_credential_priority_witness :
    read_api_key (some " key-a ") (some "keyfile") (some "key-c")
      (fun _ => "key-b") = some "key-a" := by
  rw [C6_credential_priority.2.2.2.2 " key-a " "keyfile" "key-c"
    (fun _ => "key-b") (by decide)]
  decide

/-- C9 counterexample: with valid credentials and a successful download, a
failing final file write makes the run an unhandled exception (interpreter
traceback) rather than a one-line diagnostic: the write sits outside the
try block. -/
theorem C9_counterexample :
    backup_main ⟨"truenas.local", some "k", none, false, false, 14⟩ none
      (fun _ => "") (Except.ok "bytes") [] "20250101_000000" 0 false
      = RunOutcome.crashed "unhandled exception during file write" [] := by
  exact backup_main_writefail _ none (fun _ => "") "bytes" [] "20250101_000000"
    0 (by decide)

/-- C9 (amended): failures raised inside the guarded download phase
(connection, authentication, protocol, HTTP) print one diagnostic line to
stderr and exit 1; missing credentials exit 2; phase success with a
successful write exits 0 after pruning; but a failure of the final local
file write (outside the try block) is an unhandled exception, i.e. a
traceback, not a one-line diagnostic. -/
theorem C9_error_paths :
    (∀ (a : Args) (env : Option String) (fr : String → String)
        (net : Except PyErr String) (files : List FileEntry) (ts : String)
        (mt : Int) (w : Bool),
      pyTruthy (read_api_key a.api_key a.api_key_file env fr) = false →
      backup_main a env fr net files ts mt w
        = RunOutcome.exited 2 (some missingKeyMsg) files none)
    ∧ (∀ (a : Args) (env : Option String) (fr : String → String) (e : PyErr)
        (files : List FileEntry) (ts : String) (mt : Int) (w : Bool),
      pyTruthy (read_api_key a.api_key a.api_key_file env fr) = true →
      backup_main a env fr (Except.error e) files ts mt w
        = RunOutcome.exited 1 (some (diag e)) files none)
    ∧ (∀ (a : Args) (env : Option String) (fr : String → String) (c : String)
        (files : List FileEntry) (ts : String) (mt : Int),
      pyTruthy (read_api_key a.api_key a.api_key_file env fr) = true →
      backup_main a env fr (Except.ok c) files ts mt true
        = RunOutcome.exited 0 none
            (enforce_retention (files ++ [bkFile ts mt]) a.retention)
            (some (bkFile ts mt).name))
    ∧ (∀ (a : Args) (env : Option String) (fr : String → String) (c : String)
        (files : List FileEntry) (ts : String) (mt : Int),
      pyTruthy (read_api_key a.api_key a.api_key_file env fr) = true →
      backup_main a env fr (Except.ok c) files ts mt false
        = RunOutcome.crashed "unhandled exception during file write" files) := by
  refine ⟨?_, ?_, ?_, ?_⟩
  · intro a env fr net files ts mt w h
    exact backup_main_nokey a env fr net files ts mt w h
  · intro a env fr e files ts mt w h
    exact backup_main_error a env fr e files ts mt w h
  · intro a env fr c files ts mt h
    exact backup_main_success a env fr c files ts mt h
  · intro a env fr c files ts mt h
    exact backup_main_writefail a env fr c files ts mt h

/-- Witness for C9: a generic failure of the guarded phase exits 1 with the
one-line diagnostic, and a missing key exits 2. -/
theorem C9_error_paths_witness :
    backup_main ⟨"truenas.local", some "k", none, false, false, 14⟩ none
        (fun _ => "") (Except.error (PyErr.other "boom")) [] "20250101_000000"
        0 true
      = RunOutcome.exited 1 (some "Error: boom") [] none
    ∧ backup_main ⟨"truenas.local", none, none, false, false, 14⟩ none
        (fun _ => "") (Except.ok "bytes") [] "20250101_000000" 0 true
      = RunOutcome.exited 2 (some missingKeyMsg) [] none := by
  constructor
  · rw [C9_error_paths.2.1 ⟨"truenas.local", some "k", none, false, false, 14⟩
      none (fun _ => "") (PyErr.other "boom") [] "20250101_000000" 0 true
      (by decide)]
    rfl
  · exact C9_error_paths.1 ⟨"truenas.local", none, none, false, false, 14⟩
      none (fun _ => "") (Except.ok "bytes") [] "20250101_000000" 0 true
      (by decide)

/-- C10: when `--api-key-file` is provided (non-empty), the TRUENAS_API_KEY
environment variable is never consulted: the resolved key does not depend on
it, and a key file whose contents strip to the empty string resolves to the
empty key, so the run exits 2 even though the environment variable is set;
by contrast an empty or absent `--api-key` falls through to later sources. -/
theorem C10_keyfile_shadows_env :
    (∀ (ek : Option String) (p : String) (e1 e2 : Option String)
        (fr : String → String),
      pyTruthy (some p) = true →
      read_api_key ek (some p) e1 fr = read_api_key ek (some p) e2 fr)
    ∧ (∀ (a : Args) (p ev : String) (fr : String → String)
        (net : Except PyErr String) (files : List FileEntry) (ts : String)
        (mt : Int) (w : Bool),
      pyTruthy a.api_key = false → a.api_key_file = some p →
      pyTruthy (some p) = true → pyStripS (fr p) = "" →
      backup_main a (some ev) fr net files ts mt w
        = RunOutcome.exited 2 (some missingKeyMsg) files none)
    ∧ (∀ (f e : Option String) (fr : String → String),
      read_api_key (some "") f e fr = read_api_key none f e fr) := by
  refine ⟨?_, ?_, ?_⟩
  · intro ek p e1 e2 fr hp
    cases hek : pyTruthy ek with
    | true => simp [read_api_key, hek]
    | false => simp [read_api_key, hek, hp]
  · intro a p ev fr net files ts mt w hek hf hp hs
    have hkey : read_api_key a.api_key a.api_key_file (some ev) fr
        = some "" := by
      rw [hf]
      simp [read_api_key, hek, hp, hs]
    refine backup_main_nokey a (some ev) fr net files ts mt w ?_
    rw [hkey]
    decide
  · intro f e fr
    simp [read_api_key, pyTruthy]

/-- Witness for C10: key file stripping to empty with the environment
variable set: exit code 2, nothing written. -/
theorem C10_keyfile_shadows_env_witness :
    backup_main ⟨"truenas.local", none, some "keyfile", false, false, 14⟩
      (some "envkey") (fun _ => "   ") (Except.ok "bytes") [] "20250101_000000"
      0 true
      = RunOutcome.exited 2 (some missingKeyMsg) [] none :=
  C10_keyfile_shadows_env.2.1
    ⟨"truenas.local", none, some "keyfile", false, false, 14⟩ "keyfile"
    "envkey" (fun _ => "   ") (Except.ok "bytes") [] "20250101_000000" 0 true
    (by decide) rfl (by decide) (by decide)

/-- Number of matching backup files (regular files with the backup naming
pattern) in a directory listing. -/
def countBackups (files : List FileEntry) : Nat :=
  (files.filter retentionPred).length

theorem retention_count_le (files : List FileEntry) (N : Int)
    (hnames : (files.map FileEntry.name).Nodup)
    (hdel : ∀ f ∈ files, f.deletable = true)
    (hN : 0 < N) :
    countBackups (enforce_retention files N) <= N.toNat := by
  have hNle : ¬ (N <= 0) := not_le.mpr hN
  have hperm := List.perm_insertionSort newerEq (files.filter retentionPred)
  have hfilesnd : files.Nodup := List.Nodup.of_map _ hnames
  have hsub : ∀ x ∈ (enforce_retention files N).filter retentionPred,
      x ∈ (backupCandidates files).take N.toNat := by
    intro x hx
    obtain ⟨hxe, hxp⟩ := List.mem_filter.mp hx
    rw [enforce_retention, if_neg hNle] at hxe
    obtain ⟨hxf, hxb⟩ := List.mem_filter.mp hxe
    have hxdel : x.deletable = true := hdel x hxf
    rw [hxdel] at hxb
    have hany : (victims files N).any (fun v => v.name == x.name) = false := by
      simpa using hxb
    have hxs : x ∈ backupCandidates files :=
      hperm.mem_iff.mpr (List.mem_filter.mpr ⟨hxf, hxp⟩)
    have hnv : x ∉ victims files N := by
      intro hmem
      have htr : (victims files N).any (fun v => v.name == x.name) = true :=
        List.any_eq_true.mpr ⟨x, hmem, by simp⟩
      rw [hany] at htr
      cases htr
    have hvic : victims files N = (backupCandidates files).drop N.toNat := by
      rw [victims, if_neg hNle]
    have hmemapp : x ∈ (backupCandidates files).take N.toNat ++
        (backupCandidates files).drop N.toNat := by
      rw [List.take_append_drop]
      exact hxs
    rcases List.mem_append.mp hmemapp with h | h
    · exact h
    · rw [← hvic] at h
      exact absurd h hnv
  have hnd : ((enforce_retention files N).filter retentionPred).Nodup := by
    rw [enforce_retention, if_neg hNle]
    exact (hfilesnd.filter _).filter _
  have hsp := hnd.subperm hsub
  have hlen1 : ((enforce_retention files N).filter retentionPred).length
      <= ((backupCandidates files).take N.toNat).length := hsp.length_le
  have hlen2 : ((backupCandidates files).take N.toNat).length <= N.toNat := by
    rw [List.length_take]
    exact min_le_left _ _
  rw [countBackups]
  omega

/-- An older backup file whose unlink fails (locked). -/
def lockedOld1 : FileEntry := ⟨"truenas_config_20240101_000000.tar", 1, true, false⟩

/-- A second locked older backup file. -/
def lockedOld2 : FileEntry := ⟨"truenas_config_20240102_000000.tar", 2, true, false⟩

/-- C7 counterexample: retention 1, two locked older backups: the run still
exits 0, a new backup is written, but three matching files remain in the
output directory, violating the claimed unconditional at-most-N invariant. -/
theorem C7_counterexample :
    backup_main ⟨"truenas.local", some "k", none, false, false, 1⟩ none
        (fun _ => "") (Except.ok "bytes") [lockedOld1, lockedOld2]
        "20250101_000000" 10 true
      = RunOutcome.exited 0 none
          (enforce_retention ([lockedOld1, lockedOld2]
            ++ [bkFile "20250101_000000" 10]) 1)
          (some (bkFile "20250101_000000" 10).name)
    ∧ countBackups (enforce_retention ([lockedOld1, lockedOld2]
        ++ [bkFile "20250101_000000" 10]) 1) = 3
    ∧ ¬ ((3 : Nat) <= 1) := by
  refine ⟨backup_main_success ⟨"truenas.local", some "k", none, false, false, 1⟩
    none (fun _ => "") "bytes" [lockedOld1, lockedOld2] "20250101_000000" 10
    (by decide), by decide, by decide⟩

/-- C7 (amended): provided the files are regular, deletable, and uniquely
named, after a successful run (exit code 0) at most N matching backup files
remain in the output directory, whatever was there before. -/
theorem C7_retention_invariant (a : Args) (env : Option String)
    (fr : String → String) (c : String) (files : List FileEntry)
    (ts : String) (mt : Int)
    (hkey : pyTruthy (read_api_key a.api_key a.api_key_file env fr) = true)
    (hN : 0 < a.retention)
    (hnames : ((files ++ [bkFile ts mt]).map FileEntry.name).Nodup)
    (hdel : ∀ f ∈ files ++ [bkFile ts mt], f.deletable = true) :
    backup_main a env fr (Except.ok c) files ts mt true
      = RunOutcome.exited 0 none
          (enforce_retention (files ++ [bkFile ts mt]) a.retention)
          (some (bkFile ts mt).name)
    ∧ countBackups (enforce_retention (files ++ [bkFile ts mt]) a.retention)
        <= a.retention.toNat := by
  exact ⟨backup_main_success a env fr c files ts mt hkey,
    retention_count_le _ _ hnames hdel hN⟩

/-- Witness for C7 at a concrete run with empty prior directory and
retention 14. -/
theorem C7_retention_invariant_witness :
    backup_main ⟨"truenas.local", some "k", none, false, false, 14⟩ none
        (fun _ => "") (Except.ok "bytes") [] "20250101_000000" 10 true
      = RunOutcome.exited 0 none
          (enforce_retention ([] ++ [bkFile "20250101_000000" 10]) 14)
          (some (bkFile "20250101_000000" 10).name)
    ∧ countBackups (enforce_retention ([] ++ [bkFile "20250101_000000" 10]) 14)
        <= (14 : Int).toNat :=
  C7_retention_invariant ⟨"truenas.local", some "k", none, false, false, 14⟩
    none (fun _ => "") "bytes" [] "20250101_000000" 10 (by decide) (by decide)
    (by decide) (by decide)

/-- C8: a failing deletion of an individual victim is swallowed: the
non-deletable victim simply stays, every deletable victim is still removed
whatever the other victims do, and a run whose download succeeded still
exits 0 no matter which deletions fail. -/
theorem C8_deletion_failure_swallowed :
    (∀ (files : List FileEntry) (N : Int), ∀ v ∈ victims files N,
      v.deletable = false → v ∈ enforce_retention files N)
    ∧ (∀ (files : List FileEntry) (N : Int), 0 < N → ∀ v ∈ victims files N,
      v.deletable = true → v ∉ enforce_retention files N)
    ∧ (∀ (a : Args) (env : Option String) (fr : String → String) (c : String)
        (files : List FileEntry) (ts : String) (mt : Int),
      pyTruthy (read_api_key a.api_key a.api_key_file env fr) = true →
      backup_main a env fr (Except.ok c) files ts mt true
        = RunOutcome.exited 0 none
            (enforce_retention (files ++ [bkFile ts mt]) a.retention)
            (some (bkFile ts mt).name)) := by
  refine ⟨?_, ?_, ?_⟩
  · intro files N v hv hvd
    by_cases hN : N <= 0
    · rw [victims, if_pos hN] at hv
      cases hv
    · rw [enforce_retention, if_neg hN, List.mem_filter]
      exact ⟨(victims_subset files N v hv).1, by simp [hvd]⟩
  · intro files N hN v hv hvd hmem
    have hNle : ¬ (N <= 0) := not_le.mpr hN
    rw [enforce_retention, if_neg hNle, List.mem_filter] at hmem
    obtain ⟨_, hb⟩ := hmem
    have htr : (victims files N).any (fun w => w.name == v.name) = true :=
      List.any_eq_true.mpr ⟨v, hv, by simp⟩
    rw [hvd, htr] at hb
    cases hb
  · intro a env fr c files ts mt hkey
    exact backup_main_success a env fr c files ts mt hkey

/-- A directory mixing one locked and two deletable backups. -/
def fsC8 : List FileEntry :=
  [lockedOld1, bkFile "20250110_000000" 6, bkFile "20250111_000000" 7]

/-- Witness for C8: with retention 1 over `fsC8`, the locked victim stays,
the deletable victim is removed anyway, and a successful run over this
directory exits 0. -/
theorem C8_deletion_failure_swallowed_witness :
    lockedOld1 ∈ enforce_retention fsC8 1
    ∧ bkFile "20250110_000000" 6 ∉ enforce_retention fsC8 1
    ∧ backup_main ⟨"truenas.local", some "k", none, false, false, 1⟩ none
        (fun _ => "") (Except.ok "bytes") fsC8 "20250112_000000" 8 true
      = RunOutcome.exited 0 none
          (enforce_retention (fsC8 ++ [bkFile "20250112_000000" 8]) 1)
          (some (bkFile "20250112_000000" 8).name) :=
  ⟨C8_deletion_failure_swallowed.1 fsC8 1 lockedOld1 (by decide) (by decide),
   C8_deletion_failure_swallowed.2.1 fsC8 1 (by decide)
     (bkFile "20250110_000000" 6) (by decide) (by decide),
   C8_deletion_failure_swallowed.2.2
     ⟨"truenas.local", some "k", none, false, false, 1⟩ none (fun _ => "")
     "bytes" fsC8 "20250112_000000" 8 (by decide)⟩

end Backup
